import Mathlib

/-!
A shallow embedding of the poster-generator module (`Oasis.py`): the unit
converter, the colour module (RGB↔CMYK with the round-trip gamut check), the
text layout routine, and the layout skeleton of the poster pipeline.
Python real arithmetic is modelled with exact rationals, Python `int()`
truncation with `pyInt`, and Python integers with `ℤ`.
-/

namespace Oasis

/-- Python `int()` applied to a real value: truncation toward zero. -/
def pyInt (q : ℚ) : ℤ := if q < 0 then ⌈q⌉ else ⌊q⌋

/-- Module constant `A3_WIDTH_MM = 297`. -/
def A3_WIDTH_MM : ℚ := 297

/-- Module constant `A3_HEIGHT_MM = 420`. -/
def A3_HEIGHT_MM : ℚ := 420

/-- Module constant `A4_WIDTH_MM = 210`. -/
def A4_WIDTH_MM : ℚ := 210

/-- Module constant `A4_HEIGHT_MM = 297`. -/
def A4_HEIGHT_MM : ℚ := 297

/-- Module constant `DPI = 300` (pixels per inch). -/
def DPI : ℚ := 300

/-- Module constant `MM_TO_INCH = 1 / 25.4`. -/
def MM_TO_INCH : ℚ := 1 / 25.4

/-- Module constant `BORDER_MM = 10`. -/
def BORDER_MM : ℚ := 10

/-- Module constant `FONT_SCALE_MULTIPLIER = 4.0`. -/
def FONT_SCALE_MULTIPLIER : ℚ := 4.0

/-- `mm_to_pixels(mm, dpi=DPI)`: convert millimetres to pixels,
`int(mm * MM_TO_INCH * dpi)`.  Every call site in the module uses the
default `dpi = DPI`; here the argument is passed explicitly. -/
def mm_to_pixels (mm : ℚ) (dpi : ℚ) : ℤ := pyInt (mm * MM_TO_INCH * dpi)

/-- The two paper sizes offered by the UI radio button. -/
inductive PaperSize
  | A3
  | A4
  deriving DecidableEq

/-- `get_scale_factor(paper_size)`: `1.0` for A3, else `A4_WIDTH_MM / A3_WIDTH_MM`. -/
def get_scale_factor : PaperSize → ℚ
  | .A3 => 1.0
  | .A4 => A4_WIDTH_MM / A3_WIDTH_MM

/-- `cmyk_to_rgb(c, m, y, k)`: each input is divided by 100, each channel is
`255 * (1 - c) * (1 - k)` (resp. `m`, `y`), truncated by `int()`. -/
def cmyk_to_rgb (c m y k : ℤ) : ℤ × ℤ × ℤ :=
  let c' : ℚ := (c : ℚ) / 100
  let m' : ℚ := (m : ℚ) / 100
  let y' : ℚ := (y : ℚ) / 100
  let k' : ℚ := (k : ℚ) / 100
  (pyInt (255 * (1 - c') * (1 - k')),
   pyInt (255 * (1 - m') * (1 - k')),
   pyInt (255 * (1 - y') * (1 - k')))

/-- The local `c = 1 - (r / 255.0)` of `rgb_to_cmyk` (likewise `m` and `y`
for the green and blue channels). -/
def chan (v : ℤ) : ℚ := 1 - (v : ℚ) / 255

/-- The local `k = min(c, m, y)` of `rgb_to_cmyk`. -/
def kOf (r g b : ℤ) : ℚ := min (chan r) (min (chan g) (chan b))

/-- `rgb_to_cmyk(r, g, b)`: special cases for pure black and pure white, then
`c = 1 - r/255` (etc., here `chan`), `k = min(c, m, y)` (here `kOf`), the
guard for `1 - k == 0`, and the scaled components truncated by `int()`. -/
def rgb_to_cmyk (r g b : ℤ) : ℤ × ℤ × ℤ × ℤ :=
  if (r, g, b) = ((0 : ℤ), (0 : ℤ), (0 : ℤ)) then (0, 0, 0, 100)
  else if r = 255 ∧ g = 255 ∧ b = 255 then (0, 0, 0, 0)
  else if 1 - kOf r g b = 0 then (0, 0, 0, 100)
  else
    (pyInt ((chan r - kOf r g b) / (1 - kOf r g b) * 100),
     pyInt ((chan g - kOf r g b) / (1 - kOf r g b) * 100),
     pyInt ((chan b - kOf r g b) / (1 - kOf r g b) * 100),
     pyInt (kOf r g b * 100))

/-- The round-trip `cmyk_to_rgb(*rgb_to_cmyk(r, g, b))` computed inside
`check_gamut_warning` (source lines "1. Convert original RGB to CMYK" and
"2. Convert that CMYK back to RGB"). -/
def round_trip (r g b : ℤ) : ℤ × ℤ × ℤ :=
  let q := rgb_to_cmyk r g b
  cmyk_to_rgb q.1 q.2.1 q.2.2.1 q.2.2.2

/-- `check_gamut_warning` on a triple of Python ints (the path after the
`isinstance` guard).  The source computes
`math.sqrt((r1-r2)**2 + (g1-g2)**2 + (b1-b2)**2)` and compares it with 30;
for a nonnegative integer squared distance `d`, `math.sqrt(d) > 30` holds
exactly when `d > 900`, so the branch here tests the squared distance. -/
def check_gamut_warning (r g b : ℤ) : Bool × Option (ℤ × ℤ × ℤ) :=
  let rt := round_trip r g b
  let color_difference_sq : ℤ :=
    (r - rt.1) ^ 2 + (g - rt.2.1) ^ 2 + (b - rt.2.2) ^ 2
  if 900 < color_difference_sq then (true, some rt) else (false, none)

/-- A Python value as far as `isinstance(c, int)` is concerned: an int, a
float, or a string. -/
inductive PyVal
  | int (z : ℤ)
  | float (q : ℚ)
  | str (s : String)
  deriving DecidableEq

/-- `isinstance(c, int)` for a `PyVal`. -/
def PyVal.isInt : PyVal → Bool
  | .int _ => true
  | _ => false

/-- `check_gamut_warning(original_rgb)` on an arbitrary Python triple: the
guard `if not all(isinstance(c, int) for c in original_rgb): return False, None`
and otherwise the integer path. -/
def check_gamut_warning_py (rgb : PyVal × PyVal × PyVal) : Bool × Option (ℤ × ℤ × ℤ) :=
  match rgb with
  | (.int r, .int g, .int b) => check_gamut_warning r g b
  | _ => (false, none)

/-- A font as seen by `draw_text_with_tracking`: its pixel `size` (the
`font.size` attribute) and the per-character advance width that
`draw.textlength(char, font=font)` reports for it. -/
structure Font where
  size : ℚ
  width : Char → ℚ

/-- `tracking_pixels = (font.size / 1000) * tracking` from
`draw_text_with_tracking`. -/
def tracking_pixels (font : Font) (tracking : ℚ) : ℚ :=
  (font.size / 1000) * tracking

/-- `total_width = sum(char_widths) + tracking_pixels * (len(text) - 1)` from
`draw_text_with_tracking`. -/
def total_width (font : Font) (text : List Char) (tracking : ℚ) : ℚ :=
  (text.map font.width).sum + tracking_pixels font tracking * ((text.length : ℚ) - 1)

/-- The `for i, char in enumerate(text)` loop of `draw_text_with_tracking`:
each character is emitted at the running `current_x`, which then advances by
`char_widths[i] + tracking_pixels`. -/
def placeChars (w : Char → ℚ) (tp : ℚ) : List Char → ℚ → List (Char × ℚ)
  | [], _ => []
  | ch :: cs, x => (ch, x) :: placeChars w tp cs (x + w ch + tp)

/-- `draw_text_with_tracking(draw, text, y_pos, font, tracking, poster_width)`,
with the side-effecting `draw.text` calls modelled as the returned list of
(character, x-position) pairs; `current_x` starts at
`(poster_width - total_width) / 2`. -/
def draw_text_with_tracking (font : Font) (text : List Char) (tracking : ℚ)
    (poster_width : ℚ) : List (Char × ℚ) :=
  placeChars font.width (tracking_pixels font tracking) text
    ((poster_width - total_width font text tracking) / 2)

/-- Modelled from the spec's words (§4.4 `layoutLine`), for comparison with
`draw_text_with_tracking`: glyph `i` sits at
`(canvasWidth - totalWidth) / 2` plus the widths of the glyphs before it plus
`trackingPixels × i`, where `trackingPixels = (fontSize / 1000) × tracking` and
`totalWidth` is the sum of glyph widths plus
`trackingPixels × (characterCount - 1)`. -/
def layout_spec (font : Font) (text : List Char) (tracking : ℚ)
    (poster_width : ℚ) : List (Char × ℚ) :=
  let tp := (font.size / 1000) * tracking
  let total := (text.map font.width).sum + tp * ((text.length : ℚ) - 1)
  let x0 := (poster_width - total) / 2
  (List.range text.length).map fun i =>
    (text.getD i ' ', x0 + ((text.take i).map font.width).sum + tp * (i : ℚ))

/-- An externally supplied decoded image: intrinsic pixel dimensions plus an
opaque tag standing for its pixel content. -/
structure ImageAsset where
  width : ℤ
  height : ℤ
  data : ℕ
  deriving DecidableEq

/-- The four remote assets `create_poster` resolves (texture, photo, logo,
font); `none` models a failed load, which the source treats as an absent
layer (or, for the font, as the default-typeface fallback). -/
structure Assets where
  texture : Option ImageAsset
  mainImage : Option ImageAsset
  logo : Option ImageAsset
  fontData : Option ℕ
  deriving DecidableEq

/-- The raster produced by `create_poster`, described by the operations the
source performs on it: canvas dimensions and fill colour, each optional layer
with its resize/placement parameters, the two text lines with the font sizes
requested from `ImageFont.truetype`, and the border stroke width.  Pixel
blending itself happens inside PIL; every argument the source passes to it is
recorded here. -/
structure RenderResult where
  width_px : ℤ
  height_px : ℤ
  bg : ℤ × ℤ × ℤ
  textureLayer : Option (ImageAsset × ℤ × ℤ × ℚ × ℚ)
  mainLayer : Option (ImageAsset × ℤ × ℤ × ℤ × ℤ)
  logoLayer : Option (ImageAsset × ℤ × ℤ × ℤ × ℤ)
  font1_size : ℤ
  font2_size : ℤ
  fontFallback : Bool
  line1_text : List Char
  line1_top_px : ℤ
  line2_text : List Char
  line2_top_px : ℤ
  tracking : ℚ
  border_px : ℤ
  deriving DecidableEq

/-- `create_poster(paper_size, bg_color, line1_text, line1_size, line1_y_mm,
line2_text, line2_size, line2_y_mm, tracking, font)`: the layout computations
of the source, in source order.  The `font` parameter is ignored by the
source (the UI passes `None`); fonts are rebuilt from the downloaded
`font_data` at `int(line_size * FONT_SCALE_MULTIPLIER)` pixels, with the bare
`except` falling back to `ImageFont.load_default()` when the font asset is
unavailable. -/
def create_poster (paper_size : PaperSize) (bg_color : ℤ × ℤ × ℤ)
    (line1_text : List Char) (line1_size line1_y_mm : ℚ)
    (line2_text : List Char) (line2_size line2_y_mm : ℚ)
    (tracking : ℚ) (font : Option ℕ) (assets : Assets) : RenderResult :=
  let _ := font
  let scale := get_scale_factor paper_size
  let wh : ℚ × ℚ :=
    match paper_size with
    | .A3 => (A3_WIDTH_MM, A3_HEIGHT_MM)
    | .A4 => (A4_WIDTH_MM, A4_HEIGHT_MM)
  let width_px := mm_to_pixels wh.1 DPI
  let height_px := mm_to_pixels wh.2 DPI
  let textureLayer := assets.texture.map fun t =>
    (t, width_px, height_px, (100 : ℚ), (95 : ℚ))
  let mainLayer := assets.mainImage.map fun img =>
    let main_width_mm : ℚ := 297
    let new_width_mm := main_width_mm * scale
    let new_width_px := mm_to_pixels new_width_mm DPI
    let new_height_px := pyInt ((new_width_px : ℚ) * ((img.height : ℚ) / (img.width : ℚ)))
    let x := Int.fdiv (width_px - new_width_px) 2
    let y := height_px - new_height_px
    (img, new_width_px, new_height_px, x, y)
  let logoLayer := assets.logo.map fun lg =>
    let logo_top_mm := 70.6 * scale
    let logo_top_px := mm_to_pixels logo_top_mm DPI
    let logo_width_mm := 217.76 * scale
    let logo_height_mm := 99.14 * scale
    let logo_width_px := mm_to_pixels logo_width_mm DPI
    let logo_height_px := mm_to_pixels logo_height_mm DPI
    let logo_x := Int.fdiv (width_px - logo_width_px) 2
    let logo_y := logo_top_px - Int.fdiv logo_height_px 2
    (lg, logo_width_px, logo_height_px, logo_x, logo_y)
  let font1_size := pyInt (line1_size * FONT_SCALE_MULTIPLIER)
  let font2_size := pyInt (line2_size * FONT_SCALE_MULTIPLIER)
  let fontFallback := assets.fontData.isNone
  let line1_top_px := mm_to_pixels line1_y_mm DPI
  let line2_top_px := mm_to_pixels line2_y_mm DPI
  let border_px := mm_to_pixels BORDER_MM DPI
  ⟨width_px, height_px, bg_color, textureLayer, mainLayer, logoLayer,
   font1_size, font2_size, fontFallback, line1_text, line1_top_px,
   line2_text, line2_top_px, tracking, border_px⟩

/-- One parameter tuple for a `create_poster` call, assets included. -/
structure RenderParams where
  paper_size : PaperSize
  bg_color : ℤ × ℤ × ℤ
  line1_text : List Char
  line1_size : ℚ
  line1_y_mm : ℚ
  line2_text : List Char
  line2_size : ℚ
  line2_y_mm : ℚ
  tracking : ℚ
  font : Option ℕ
  assets : Assets
  deriving DecidableEq

/-- `create_poster` applied to a bundled parameter tuple. -/
def run_create_poster (p : RenderParams) : RenderResult :=
  create_poster p.paper_size p.bg_color p.line1_text p.line1_size p.line1_y_mm
    p.line2_text p.line2_size p.line2_y_mm p.tracking p.font p.assets

example : rgb_to_cmyk 0 0 0 = (0, 0, 0, 100) := by norm_num [rgb_to_cmyk]
example : rgb_to_cmyk 255 255 255 = (0, 0, 0, 0) := by norm_num [rgb_to_cmyk]
example : rgb_to_cmyk 255 0 0 = (0, 100, 100, 0) := by norm_num [rgb_to_cmyk, pyInt, chan, kOf, min_def]
example : round_trip 255 0 0 = (255, 0, 0) := by
  norm_num [round_trip, rgb_to_cmyk, cmyk_to_rgb, pyInt, chan, kOf, min_def]
example : check_gamut_warning 255 0 0 = (false, none) := by
  norm_num [check_gamut_warning, round_trip, rgb_to_cmyk, cmyk_to_rgb, pyInt, chan, kOf, min_def]
example : round_trip 128 128 128 = (130, 130, 130) := by
  norm_num [round_trip, rgb_to_cmyk, cmyk_to_rgb, pyInt, chan, kOf, min_def]
example : check_gamut_warning 128 128 128 = (false, none) := by
  norm_num [check_gamut_warning, round_trip, rgb_to_cmyk, cmyk_to_rgb, pyInt, chan, kOf, min_def]
example : mm_to_pixels (-1) 300 = -11 := by
  rw [mm_to_pixels, MM_TO_INCH, pyInt, if_pos (by norm_num),
    show ((-1) * (1 / 25.4) * 300 : ℚ) = -(1500 / 127) by norm_num, Int.ceil_neg]
  norm_num
example : mm_to_pixels 420 DPI = 4960 := by norm_num [mm_to_pixels, DPI, MM_TO_INCH, pyInt]
example : mm_to_pixels 1000 DPI = 11811 := by norm_num [mm_to_pixels, DPI, MM_TO_INCH, pyInt]

/-! ### Helper lemmas -/

/-- `int()` truncation agrees with the floor on nonnegative values. -/
lemma pyInt_of_nonneg {q : ℚ} (h : 0 ≤ q) : pyInt q = ⌊q⌋ := by
  rw [pyInt, if_neg (not_lt.mpr h)]

/-- For a nonnegative integer squared distance, `math.sqrt d > 30` is the same
comparison as `d > 900`. -/
lemma sqrt_gt_thirty_iff (d : ℤ) (hd : 0 ≤ d) :
    (30 < Real.sqrt (d : ℝ)) ↔ 900 < d := by
  rw [Real.lt_sqrt (by norm_num : (0 : ℝ) ≤ 30),
    show ((30 : ℝ)) ^ 2 = ((900 : ℤ) : ℝ) by norm_num, Int.cast_lt]

/-- `chan v` is nonnegative for channels up to 255. -/
lemma chan_nonneg {v : ℤ} (h : v ≤ 255) : 0 ≤ chan v := by
  rw [chan]
  have : (v : ℚ) ≤ 255 := by exact_mod_cast h
  nlinarith

/-- `chan v` is below 1 for positive channels. -/
lemma chan_lt_one {v : ℤ} (h : 0 < v) : chan v < 1 := by
  rw [chan]
  have : (0 : ℚ) < (v : ℚ) := by exact_mod_cast h
  nlinarith

/-- One colour channel through the general branch of `rgb_to_cmyk` followed
by `cmyk_to_rgb`: without truncation the round trip would return the channel
exactly (`255·(1 - C/100)·(1 - K/100) = v` when `C` and `K` take their exact
values), and each of the two `int()` truncations in `rgb_to_cmyk` can only
raise the reconstructed value, by less than `255/100` each, so the result
lands in `[v, v+5]`. -/
lemma channel_bound (v : ℤ) (k : ℚ) (hv0 : 0 ≤ v) (hv1 : v ≤ 255)
    (hk0 : 0 ≤ k) (hk1 : k < 1) (hkc : k ≤ chan v) :
    v ≤ pyInt (255 * (1 - (pyInt ((chan v - k) / (1 - k) * 100) : ℚ) / 100) *
        (1 - (pyInt (k * 100) : ℚ) / 100)) ∧
    pyInt (255 * (1 - (pyInt ((chan v - k) / (1 - k) * 100) : ℚ) / 100) *
        (1 - (pyInt (k * 100) : ℚ) / 100)) ≤ v + 5 := by
  have ht : (0 : ℚ) < 1 - k := by linarith
  have hvq0 : (0 : ℚ) ≤ (v : ℚ) := by exact_mod_cast hv0
  have hvq1 : (v : ℚ) ≤ 255 := by exact_mod_cast hv1
  have hx0 : 0 ≤ chan v := by rw [chan]; nlinarith
  have hx1 : chan v ≤ 1 := by rw [chan]; nlinarith
  have hA0 : 0 ≤ (chan v - k) / (1 - k) * 100 :=
    mul_nonneg (div_nonneg (by linarith) ht.le) (by norm_num)
  have hA100 : (chan v - k) / (1 - k) * 100 ≤ 100 := by
    have h1 : (chan v - k) / (1 - k) ≤ 1 := (div_le_one ht).mpr (by linarith)
    nlinarith
  have hk100 : (0 : ℚ) ≤ k * 100 := by positivity
  rw [pyInt_of_nonneg hA0, pyInt_of_nonneg hk100]
  set A : ℚ := (chan v - k) / (1 - k) * 100 with hA
  set C : ℤ := ⌊A⌋ with hCdef
  set K : ℤ := ⌊k * 100⌋ with hKdef
  have hCle : (C : ℚ) ≤ A := Int.floor_le A
  have hCgt : A - 1 < (C : ℚ) := Int.sub_one_lt_floor A
  have hKle : (K : ℚ) ≤ k * 100 := Int.floor_le _
  have hKgt : k * 100 - 1 < (K : ℚ) := Int.sub_one_lt_floor _
  have hid : 255 * (1 - A / 100) * (1 - k) = (v : ℚ) := by
    rw [hA, chan]
    field_simp
    ring
  have hexp : 255 * (1 - (C : ℚ) / 100) * (1 - (K : ℚ) / 100) =
      (v : ℚ) + (255 / 100) * ((1 - A / 100) * (k * 100 - (K : ℚ))) +
        (255 / 100) * ((A - (C : ℚ)) * (1 - k)) +
        (255 / 10000) * ((A - (C : ℚ)) * (k * 100 - (K : ℚ))) := by
    rw [← hid]
    ring
  have h1 : 0 ≤ (1 - A / 100) * (k * 100 - (K : ℚ)) :=
    mul_nonneg (by linarith) (by linarith)
  have h2 : 0 ≤ (A - (C : ℚ)) * (1 - k) := mul_nonneg (by linarith) (by linarith)
  have h3 : 0 ≤ (A - (C : ℚ)) * (k * 100 - (K : ℚ)) :=
    mul_nonneg (by linarith) (by linarith)
  have hPlow : (v : ℚ) ≤ 255 * (1 - (C : ℚ) / 100) * (1 - (K : ℚ) / 100) := by
    rw [hexp]; linarith
  have hP0 : (0 : ℚ) ≤ 255 * (1 - (C : ℚ) / 100) * (1 - (K : ℚ) / 100) :=
    le_trans hvq0 hPlow
  have h5 : (1 - A / 100) * (k * 100 - (K : ℚ)) ≤ k * 100 - (K : ℚ) :=
    mul_le_of_le_one_left (by linarith) (by linarith)
  have h6 : (A - (C : ℚ)) * (1 - k) ≤ A - (C : ℚ) :=
    mul_le_of_le_one_right (by linarith) (by linarith)
  have h7 : (A - (C : ℚ)) * (k * 100 - (K : ℚ)) < 1 := by
    have h7a : (A - (C : ℚ)) * (k * 100 - (K : ℚ)) ≤ A - (C : ℚ) :=
      mul_le_of_le_one_right (by linarith) (by linarith)
    linarith
  have hPhigh : 255 * (1 - (C : ℚ) / 100) * (1 - (K : ℚ) / 100) < (v : ℚ) + 6 := by
    rw [hexp]; linarith
  rw [pyInt_of_nonneg hP0]
  constructor
  · exact Int.le_floor.mpr hPlow
  · have h8 : (⌊255 * (1 - (C : ℚ) / 100) * (1 - (K : ℚ) / 100)⌋ : ℚ) < (v : ℚ) + 6 :=
      lt_of_le_of_lt (Int.floor_le _) hPhigh
    have h9 : ⌊255 * (1 - (C : ℚ) / 100) * (1 - (K : ℚ) / 100)⌋ < v + 6 := by
      exact_mod_cast h8
    omega

/-! ### Claims -/

/-- C3: `rgb_to_cmyk` maps pure black `(0,0,0)` to exactly `(0,0,0,100)` and
pure white `(255,255,255)` to exactly `(0,0,0,0)`. -/
theorem rgb_to_cmyk_black_white :
    rgb_to_cmyk 0 0 0 = (0, 0, 0, 100) ∧ rgb_to_cmyk 255 255 255 = (0, 0, 0, 0) := by
  constructor <;> norm_num [rgb_to_cmyk]

/-- C2 counterexample: on pure red `(255,0,0)` the gamut check returns
`isOutOfGamut = false` (with no approximate colour), because
`rgb_to_cmyk(255,0,0) = (0,100,100,0)` round-trips to exactly `(255,0,0)`,
giving colour difference 0 — the claim says it returns `true` there. -/
theorem check_gamut_warning_pure_red_counterexample :
    check_gamut_warning 255 0 0 = (false, none) := by
  norm_num [check_gamut_warning, round_trip, rgb_to_cmyk, cmyk_to_rgb, pyInt, chan, kOf, min_def]

/-- C2 amended: the gamut check returns `isOutOfGamut = false` both for pure
red `(255,0,0)` (its naive round trip reproduces a fully saturated primary
exactly) and for neutral grey `(128,128,128)`. -/
theorem check_gamut_warning_red_and_grey :
    (check_gamut_warning 255 0 0).1 = false ∧ (check_gamut_warning 128 128 128).1 = false := by
  constructor <;>
    norm_num [check_gamut_warning, round_trip, rgb_to_cmyk, cmyk_to_rgb, pyInt, chan, kOf, min_def]

/-- C4 counterexample: at `mm = -1`, `dpi = 300` the code truncates toward
zero (`-11`) while `floor(mm / 25.4 × dpi) = -12`. -/
theorem mm_to_pixels_negative_counterexample :
    mm_to_pixels (-1) 300 ≠ ⌊((-1 : ℚ) / 25.4 * 300)⌋ := by
  have h1 : mm_to_pixels (-1) 300 = -11 := by
    rw [mm_to_pixels, MM_TO_INCH, pyInt, if_pos (by norm_num),
      show ((-1) * (1 / 25.4) * 300 : ℚ) = -(1500 / 127) by norm_num, Int.ceil_neg]
    norm_num
  have h2 : ⌊((-1 : ℚ) / 25.4 * 300)⌋ = -12 := by norm_num
  rw [h1, h2]; decide

/-- C4 amended: `mm_to_pixels` truncates toward zero (Python `int()`), which
agrees with `floor(mm / 25.4 × dpi)` whenever `mm` and `dpi` are nonnegative
(as at every call site); for a negative product, truncation rounds up
instead. -/
theorem mm_to_pixels_eq_floor (mm dpi : ℚ) (hmm : 0 ≤ mm) (hdpi : 0 ≤ dpi) :
    mm_to_pixels mm dpi = ⌊mm / 25.4 * dpi⌋ := by
  rw [mm_to_pixels, MM_TO_INCH,
    pyInt_of_nonneg (by positivity : (0 : ℚ) ≤ mm * (1 / 25.4) * dpi)]
  congr 1
  ring

/-- Witness for C4's amended theorem at `mm = 297`, `dpi = 300`. -/
theorem mm_to_pixels_eq_floor_witness :
    mm_to_pixels 297 300 = ⌊(297 : ℚ) / 25.4 * 300⌋ :=
  mm_to_pixels_eq_floor 297 300 (by norm_num) (by norm_num)

/-- C10: if any component of the input triple is not a Python int, the gamut
check returns `(false, none)` — such inputs are never flagged, regardless of
their value. -/
theorem check_gamut_warning_py_non_int (rgb : PyVal × PyVal × PyVal)
    (h : rgb.1.isInt = false ∨ rgb.2.1.isInt = false ∨ rgb.2.2.isInt = false) :
    check_gamut_warning_py rgb = (false, none) := by
  obtain ⟨a, b, c⟩ := rgb
  cases a <;> cases b <;> cases c <;> simp_all [check_gamut_warning_py, PyVal.isInt]

/-- Witness for C10 at the triple `(0.5, 255, 0)`. -/
theorem check_gamut_warning_py_non_int_witness :
    check_gamut_warning_py (.float (1 / 2), .int 255, .int 0) = (false, none) :=
  check_gamut_warning_py_non_int (.float (1 / 2), .int 255, .int 0) (Or.inl rfl)

/-- C1: for integer channels in `[0,255]`, `check_gamut_warning` returns
`(true, rgb')` — where `rgb'` is the CMYK round trip of the input — exactly
when the Euclidean distance `sqrt((r-r')² + (g-g')² + (b-b')²)` exceeds 30,
and returns `(false, none)` otherwise. -/
theorem check_gamut_warning_spec (r g b : ℤ) (hr0 : 0 ≤ r) (hr1 : r ≤ 255)
    (hg0 : 0 ≤ g) (hg1 : g ≤ 255) (hb0 : 0 ≤ b) (hb1 : b ≤ 255) :
    (check_gamut_warning r g b = (true, some (round_trip r g b)) ↔
      30 < Real.sqrt (((r - (round_trip r g b).1) ^ 2 + (g - (round_trip r g b).2.1) ^ 2 +
        (b - (round_trip r g b).2.2) ^ 2 : ℤ) : ℝ)) ∧
    (check_gamut_warning r g b = (false, none) ↔
      ¬ 30 < Real.sqrt (((r - (round_trip r g b).1) ^ 2 + (g - (round_trip r g b).2.1) ^ 2 +
        (b - (round_trip r g b).2.2) ^ 2 : ℤ) : ℝ)) := by
  simp only [check_gamut_warning]
  set d : ℤ := (r - (round_trip r g b).1) ^ 2 + (g - (round_trip r g b).2.1) ^ 2 +
    (b - (round_trip r g b).2.2) ^ 2
  have hd0 : 0 ≤ d := by positivity
  rw [sqrt_gt_thirty_iff d hd0]
  by_cases h : 900 < d
  · simp [h]
  · simp [h]

/-- Witness for C1 at the input `(0, 0, 0)`. -/
theorem check_gamut_warning_spec_witness :
    (check_gamut_warning 0 0 0 = (true, some (round_trip 0 0 0)) ↔
      30 < Real.sqrt ((((0 : ℤ) - (round_trip 0 0 0).1) ^ 2 + (0 - (round_trip 0 0 0).2.1) ^ 2 +
        (0 - (round_trip 0 0 0).2.2) ^ 2 : ℤ) : ℝ)) ∧
    (check_gamut_warning 0 0 0 = (false, none) ↔
      ¬ 30 < Real.sqrt ((((0 : ℤ) - (round_trip 0 0 0).1) ^ 2 + (0 - (round_trip 0 0 0).2.1) ^ 2 +
        (0 - (round_trip 0 0 0).2.2) ^ 2 : ℤ) : ℝ)) :=
  check_gamut_warning_spec 0 0 0 (by norm_num) (by norm_num) (by norm_num) (by norm_num)
    (by norm_num) (by norm_num)

/-- C5: for every RGB triple with integer channels in `[0,255]`, the round
trip `cmyk_to_rgb(rgb_to_cmyk(r,g,b))` deviates from the input by at most 5
per channel — lossy, but with a fixed bound. -/
theorem round_trip_bounded (r g b : ℤ)
    (hr0 : 0 ≤ r) (hr1 : r ≤ 255) (hg0 : 0 ≤ g) (hg1 : g ≤ 255)
    (hb0 : 0 ≤ b) (hb1 : b ≤ 255) :
    |(round_trip r g b).1 - r| ≤ 5 ∧ |(round_trip r g b).2.1 - g| ≤ 5 ∧
      |(round_trip r g b).2.2 - b| ≤ 5 := by
  by_cases hblack : (r, g, b) = ((0 : ℤ), (0 : ℤ), (0 : ℤ))
  · obtain ⟨hr, hg, hb⟩ : r = 0 ∧ g = 0 ∧ b = 0 := by
      simpa [Prod.ext_iff] using hblack
    subst hr; subst hg; subst hb
    norm_num [round_trip, rgb_to_cmyk, cmyk_to_rgb, pyInt]
  by_cases hwhite : r = 255 ∧ g = 255 ∧ b = 255
  · obtain ⟨hr, hg, hb⟩ := hwhite
    subst hr; subst hg; subst hb
    norm_num [round_trip, rgb_to_cmyk, cmyk_to_rgb, pyInt]
  have hk0 : 0 ≤ kOf r g b :=
    le_min (chan_nonneg hr1) (le_min (chan_nonneg hg1) (chan_nonneg hb1))
  have hk1 : kOf r g b < 1 := by
    have hone : 0 < r ∨ 0 < g ∨ 0 < b := by
      by_contra hcon
      push_neg at hcon
      exact hblack (by
        have h1 : r = 0 := le_antisymm hcon.1 hr0
        have h2 : g = 0 := le_antisymm hcon.2.1 hg0
        have h3 : b = 0 := le_antisymm hcon.2.2 hb0
        rw [h1, h2, h3])
    rcases hone with h | h | h
    · exact lt_of_le_of_lt (min_le_left _ _) (chan_lt_one h)
    · exact lt_of_le_of_lt (le_trans (min_le_right _ _) (min_le_left _ _)) (chan_lt_one h)
    · exact lt_of_le_of_lt (le_trans (min_le_right _ _) (min_le_right _ _)) (chan_lt_one h)
  have hkne : ¬(1 - kOf r g b = 0) := ne_of_gt (by linarith)
  have hcm : rgb_to_cmyk r g b =
      (pyInt ((chan r - kOf r g b) / (1 - kOf r g b) * 100),
       pyInt ((chan g - kOf r g b) / (1 - kOf r g b) * 100),
       pyInt ((chan b - kOf r g b) / (1 - kOf r g b) * 100),
       pyInt (kOf r g b * 100)) := by
    rw [rgb_to_cmyk, if_neg hblack, if_neg hwhite, if_neg hkne]
  have hrt : round_trip r g b =
      (pyInt (255 * (1 - (pyInt ((chan r - kOf r g b) / (1 - kOf r g b) * 100) : ℚ) / 100) *
          (1 - (pyInt (kOf r g b * 100) : ℚ) / 100)),
       pyInt (255 * (1 - (pyInt ((chan g - kOf r g b) / (1 - kOf r g b) * 100) : ℚ) / 100) *
          (1 - (pyInt (kOf r g b * 100) : ℚ) / 100)),
       pyInt (255 * (1 - (pyInt ((chan b - kOf r g b) / (1 - kOf r g b) * 100) : ℚ) / 100) *
          (1 - (pyInt (kOf r g b * 100) : ℚ) / 100))) := by
    rw [round_trip, hcm]
    rfl
  rw [hrt]
  have hR := channel_bound r (kOf r g b) hr0 hr1 hk0 hk1 (min_le_left _ _)
  have hG := channel_bound g (kOf r g b) hg0 hg1 hk0 hk1
    (le_trans (min_le_right _ _) (min_le_left _ _))
  have hB := channel_bound b (kOf r g b) hb0 hb1 hk0 hk1
    (le_trans (min_le_right _ _) (min_le_right _ _))
  refine ⟨?_, ?_, ?_⟩
  · rw [abs_le]; constructor <;> [linarith [hR.1]; linarith [hR.2]]
  · rw [abs_le]; constructor <;> [linarith [hG.1]; linarith [hG.2]]
  · rw [abs_le]; constructor <;> [linarith [hB.1]; linarith [hB.2]]

/-- Witness for C5 at the input `(200, 100, 50)`. -/
theorem round_trip_bounded_witness :
    |(round_trip 200 100 50).1 - 200| ≤ 5 ∧ |(round_trip 200 100 50).2.1 - 100| ≤ 5 ∧
      |(round_trip 200 100 50).2.2 - 50| ≤ 5 :=
  round_trip_bounded 200 100 50 (by norm_num) (by norm_num) (by norm_num) (by norm_num)
    (by norm_num) (by norm_num)

/-- Closed form of the placement loop: character `i` is drawn at the start
position plus the widths of the characters before it plus `i` tracking gaps. -/
lemma placeChars_closed (w : Char → ℚ) (tp : ℚ) (text : List Char) :
    ∀ x : ℚ, placeChars w tp text x =
      (List.range text.length).map fun i =>
        (text.getD i ' ', x + ((text.take i).map w).sum + tp * (i : ℚ)) := by
  induction text with
  | nil => intro x; simp [placeChars]
  | cons ch cs ih =>
    intro x
    rw [placeChars, ih, List.length_cons, List.range_succ_eq_map, List.map_cons, List.map_map]
    congr 1
    · simp
    · refine List.map_congr_left fun i _ => ?_
      simp only [Function.comp_apply, Nat.succ_eq_add_one, List.getD_cons_succ,
        List.take_succ_cons, List.map_cons, List.sum_cons, Nat.cast_add, Nat.cast_one,
        Prod.mk.injEq, true_and]
      ring

/-- C6: the text layout loop computes
`trackingPixels = (fontSize / 1000) × tracking`, a total width equal to the
sum of the per-character advance widths plus `trackingPixels × (len − 1)`, a
starting x of `(canvasWidth − totalWidth) / 2`, and places the glyphs left to
right, each advanced by its own width plus `trackingPixels` — i.e. the loop
agrees with the spec's closed-form layout. -/
theorem draw_text_with_tracking_matches_spec (font : Font) (text : List Char)
    (tracking poster_width : ℚ) :
    draw_text_with_tracking font text tracking poster_width =
      layout_spec font text tracking poster_width := by
  rw [draw_text_with_tracking, placeChars_closed]
  simp only [layout_spec, total_width, tracking_pixels]

/-- C7: with tracking 0 the measured line width is the plain sum of glyph
widths, and for a fixed string of length > 1 under a font of positive pixel
size the width strictly increases with the (positive) tracking value. -/
theorem total_width_tracking_behavior (font : Font) (text : List Char)
    (hlen : 1 < text.length) (hsize : 0 < font.size) :
    total_width font text 0 = (text.map font.width).sum ∧
    ∀ t₁ t₂ : ℚ, 0 < t₁ → t₁ < t₂ →
      total_width font text t₁ < total_width font text t₂ := by
  constructor
  · simp [total_width, tracking_pixels]
  · intro t₁ t₂ _ ht
    unfold total_width tracking_pixels
    have hn : (1 : ℚ) < (text.length : ℚ) := by exact_mod_cast hlen
    have hpos : 0 < (font.size / 1000) * (t₂ - t₁) * ((text.length : ℚ) - 1) := by
      apply mul_pos (mul_pos (by positivity) (by linarith))
      linarith
    nlinarith [hpos]

/-- Witness for C7 with a two-character string and a size-100 font of
constant advance width 10, at tracking values 0, 1 and 2. -/
theorem total_width_tracking_behavior_witness :
    total_width ⟨100, fun _ => 10⟩ ['a', 'b'] 0 =
      (['a', 'b'].map (Font.mk 100 fun _ => 10).width).sum ∧
    total_width ⟨100, fun _ => 10⟩ ['a', 'b'] 1 < total_width ⟨100, fun _ => 10⟩ ['a', 'b'] 2 := by
  have h := total_width_tracking_behavior ⟨100, fun _ => 10⟩ ['a', 'b']
    (by norm_num) (by norm_num)
  exact ⟨h.1, h.2 1 2 (by norm_num) (by norm_num)⟩

/-- C8 amended: `create_poster` performs no parameter validation at all —
for every parameter set, invalid ones included, it returns an ordinary render
result, and the converted values are used unclamped: the text rows sit at
exactly `mm_to_pixels(line_y_mm)` even when that is beyond the page, and the
requested font pixel size is exactly `int(line_size × 4.0)` even when that is
negative (the bare `except` then silently falls back to the default font
rather than reporting a validation error). -/
theorem create_poster_no_validation (paper_size : PaperSize) (bg_color : ℤ × ℤ × ℤ)
    (line1_text : List Char) (line1_size line1_y_mm : ℚ)
    (line2_text : List Char) (line2_size line2_y_mm : ℚ)
    (tracking : ℚ) (font : Option ℕ) (assets : Assets) :
    (create_poster paper_size bg_color line1_text line1_size line1_y_mm
        line2_text line2_size line2_y_mm tracking font assets).line1_top_px =
      mm_to_pixels line1_y_mm DPI ∧
    (create_poster paper_size bg_color line1_text line1_size line1_y_mm
        line2_text line2_size line2_y_mm tracking font assets).line2_top_px =
      mm_to_pixels line2_y_mm DPI ∧
    (create_poster paper_size bg_color line1_text line1_size line1_y_mm
        line2_text line2_size line2_y_mm tracking font assets).font1_size =
      pyInt (line1_size * FONT_SCALE_MULTIPLIER) ∧
    (create_poster paper_size bg_color line1_text line1_size line1_y_mm
        line2_text line2_size line2_y_mm tracking font assets).font2_size =
      pyInt (line2_size * FONT_SCALE_MULTIPLIER) :=
  ⟨rfl, rfl, rfl, rfl⟩

/-- C8 counterexample: with a negative point size (−10 pt) and a vertical
position far outside the A3 page (1000 mm from the top of a 420 mm page),
`create_poster` does not fail with a validation error: it returns a normal
render result that requests a negative font pixel size (−40) and places the
first text row at pixel row 11811, below the 4960-pixel-tall canvas. -/
theorem create_poster_accepts_invalid :
    (create_poster .A3 (255, 255, 255) ['o'] (-10) 1000 ['c'] 43 387 50 none
        ⟨none, none, none, none⟩).font1_size = -40 ∧
    (create_poster .A3 (255, 255, 255) ['o'] (-10) 1000 ['c'] 43 387 50 none
        ⟨none, none, none, none⟩).line1_top_px = 11811 ∧
    (create_poster .A3 (255, 255, 255) ['o'] (-10) 1000 ['c'] 43 387 50 none
        ⟨none, none, none, none⟩).height_px = 4960 ∧
    (create_poster .A3 (255, 255, 255) ['o'] (-10) 1000 ['c'] 43 387 50 none
        ⟨none, none, none, none⟩).height_px <
      (create_poster .A3 (255, 255, 255) ['o'] (-10) 1000 ['c'] 43 387 50 none
        ⟨none, none, none, none⟩).line1_top_px := by
  have h1 : (create_poster .A3 (255, 255, 255) ['o'] (-10) 1000 ['c'] 43 387 50 none
      ⟨none, none, none, none⟩).font1_size = -40 := by
    show pyInt ((-10) * FONT_SCALE_MULTIPLIER) = -40
    rw [FONT_SCALE_MULTIPLIER, pyInt, if_pos (by norm_num),
      show ((-10) * (4.0 : ℚ)) = -(40) by norm_num, Int.ceil_neg]
    norm_num
  have h2 : (create_poster .A3 (255, 255, 255) ['o'] (-10) 1000 ['c'] 43 387 50 none
      ⟨none, none, none, none⟩).line1_top_px = 11811 := by
    show mm_to_pixels 1000 DPI = 11811
    norm_num [mm_to_pixels, DPI, MM_TO_INCH, pyInt]
  have h3 : (create_poster .A3 (255, 255, 255) ['o'] (-10) 1000 ['c'] 43 387 50 none
      ⟨none, none, none, none⟩).height_px = 4960 := by
    show mm_to_pixels A3_HEIGHT_MM DPI = 4960
    norm_num [mm_to_pixels, A3_HEIGHT_MM, DPI, MM_TO_INCH, pyInt]
  refine ⟨h1, h2, h3, ?_⟩
  rw [h2, h3]
  decide

/-- C9: the poster pipeline is a pure function of its parameter tuple (assets
included): in any sequence of `create_poster` calls, two calls with equal
parameter tuples produce equal render results, regardless of their position
in the sequence — there is no cross-call state. -/
theorem create_poster_deterministic (calls : List RenderParams) (i j : ℕ)
    (hi : i < calls.length) (hj : j < calls.length)
    (hij : calls.get ⟨i, hi⟩ = calls.get ⟨j, hj⟩) :
    (calls.map run_create_poster).get ⟨i, by simpa using hi⟩ =
      (calls.map run_create_poster).get ⟨j, by simpa using hj⟩ := by
  rw [List.get_map, List.get_map, hij]

/-- Witness for C9: two identical calls in a two-call sequence produce the
same render result. -/
theorem create_poster_deterministic_witness :
    ([⟨.A3, (255, 255, 255), ['o'], 162, 330, ['c'], 43, 387, 50, none,
        ⟨none, none, none, none⟩⟩,
      ⟨.A3, (255, 255, 255), ['o'], 162, 330, ['c'], 43, 387, 50, none,
        ⟨none, none, none, none⟩⟩].map run_create_poster).get ⟨0, by simp⟩ =
    ([⟨.A3, (255, 255, 255), ['o'], 162, 330, ['c'], 43, 387, 50, none,
        ⟨none, none, none, none⟩⟩,
      (⟨.A3, (255, 255, 255), ['o'], 162, 330, ['c'], 43, 387, 50, none,
        ⟨none, none, none, none⟩⟩ : RenderParams)].map run_create_poster).get ⟨1, by simp⟩ :=
  create_poster_deterministic _ 0 1 (by simp) (by simp) rfl

end Oasis
